import Mathlib

/-!
Verification development for the prompt-template (PT) component.

The definitions below embed `src/pt.py`: Python strings become `String`,
lists become `List`, Python exceptions become `Except` values, and the
mutable `PT` object becomes a value that operations return updated.
External collaborators that are not part of the repository (the jinja2
templating engine, and the provider registry loaded by `ModelLoader`,
which lives outside the sources) are modelled from the spec, as marked
in their doc comments.
-/

namespace PTSpec

/-- Python `str` whitespace characters (ASCII range), as used by
`str.strip()` and by the `\s` regex class on the inputs considered. -/
def pyIsWs (c : Char) : Bool :=
  c = ' ' || c = '\t' || c = '\n' || c = '\r' || c = '\x0b' || c = '\x0c'

/-- Drop leading Python whitespace from a character list. -/
def lstripL (l : List Char) : List Char := l.dropWhile pyIsWs

/-- Drop trailing Python whitespace from a character list. -/
def rstripL : List Char → List Char
  | [] => []
  | c :: cs =>
    let r := rstripL cs
    if r.isEmpty then (if pyIsWs c then [] else [c]) else c :: r

/-- Python `s.strip()`. -/
def pyStrip (s : String) : String := String.mk (rstripL (lstripL s.data))

/-- `not line.strip()` in the source: the line is blank (only whitespace). -/
def isBlank (s : String) : Bool := pyStrip s == ""

/-- Python `s.startswith(pre)`. -/
def pyStartsWith (s pre : String) : Bool := pre.data.isPrefixOf s.data

/-- Python `file.readlines()`: split the file contents after each newline,
keeping the newline character on each line. -/
def splitAfterNl : List Char → List (List Char)
  | [] => []
  | c :: cs =>
    match splitAfterNl cs with
    | [] => [[c]]
    | l :: rest => if c = '\n' then [c] :: l :: rest else (c :: l) :: rest

/-- The line list `readlines` produces for the given file contents. -/
def readlines (s : String) : List String := (splitAfterNl s.data).map String.mk

/-- One directive record appended to `self.shebangs` in `_parse_file`. -/
structure Shebang where
  model_name : String
  version : String
deriving DecidableEq

/-- The part of the directive pattern after the `#!` marker:
`\s*([^/]*)/?([^/]*)?`.  All three pieces may match the empty string, so
this always succeeds, returning the two capture groups. -/
def matchAfterMarker (l : List Char) : String × String :=
  let afterWs := l.dropWhile pyIsWs
  let name := afterWs.takeWhile (fun c => c ≠ '/')
  let rest := afterWs.dropWhile (fun c => c ≠ '/')
  match rest with
  | '/' :: r => (String.mk name, String.mk (r.takeWhile (fun c => c ≠ '/')))
  | _ => (String.mk name, "")

/-- `re.search` of the directive pattern: the match anchors at the first
occurrence of `#!`, everything after the marker always matches. -/
def shebangSearch : List Char → Option (String × String)
  | [] => none
  | '#' :: '!' :: rest => some (matchAfterMarker rest)
  | _ :: rest => shebangSearch rest

/-- `re.search(r'#!\s*([^/]*)/?([^/]*)?', shebang)` on a stripped line. -/
def shebangMatch (s : String) : Option (String × String) := shebangSearch s.data

/-- Build the shebang record: `version if version else 'latest'`. -/
def mkShebang (nv : String × String) : Shebang :=
  ⟨nv.1, if nv.2 == "" then "latest" else nv.2⟩

/-- Python exceptions escaping the embedded operations. -/
inductive PyError where
  | parseError (msg : String)
  | attributeError
  | loaderError
deriving DecidableEq

/-- The shebang-scanning loop of `_parse_file`: consume lines starting
with `#!`, turning each into a record; stop at the first other line.
Running past the end of the list is the `IndexError` that the generic
`except` clause turns into a parse error. -/
def parseShebangLoop : List String → Except PyError (List Shebang × List String)
  | [] => .error (.parseError "list index out of range")
  | l :: ls =>
    if pyStartsWith l "#!" then
      match shebangMatch (pyStrip l) with
      | some nv =>
        match parseShebangLoop ls with
        | .ok (shs, rest) => .ok (mkShebang nv :: shs, rest)
        | .error e => .error e
      | none => .error (.parseError ("Invalid shebang: " ++ pyStrip l))
    else .ok ([], l :: ls)

/-- `while not lines[i].strip(): i += 1` — skip blank lines after the
directive block; running out of lines is an `IndexError`. -/
def skipBlankLines : List String → Except PyError (List String)
  | [] => .error (.parseError "list index out of range")
  | l :: ls => if isBlank l then skipBlankLines ls else .ok (l :: ls)

/-- `while not lines[-1].strip(): lines.pop()` — remove trailing blank
lines.  The source pops from the full line list before joining the
suffix `lines[i:]`; since line `i` is known non-blank, popping the full
list and popping the suffix agree, and the suffix form is used here. -/
def dropTrailingBlank : List String → List String
  | [] => []
  | l :: ls =>
    let r := dropTrailingBlank ls
    if r.isEmpty then (if isBlank l then [] else [l]) else l :: r

/-- `_parse_file` on the line list of the file: directive records plus
the raw template text `''.join(lines[i:])`. -/
def parseLines (lines : List String) : Except PyError (List Shebang × String) :=
  match parseShebangLoop lines with
  | .error e => .error e
  | .ok (shs, rest) =>
    match skipBlankLines rest with
    | .error e => .error e
    | .ok rest2 => .ok (shs, String.join (dropTrailingBlank rest2))

/-- `_parse_file` on the file contents (the file is assumed readable;
`FileNotFoundError` is outside the model). -/
def parseFile (content : String) : Except PyError (List Shebang × String) :=
  parseLines (readlines content)

/-- An external model provider.  Modelled from the spec: an opaque
capability with a `name`, a printable form, and an invoke operation
taking keyword arguments and returning a result sequence (`invoke_from_pt`;
its behaviour, including any use it makes of the template, is folded into
the opaque function). -/
structure Provider where
  name : String
  reprS : String
  invoke : List (String × String) → List String

/-- A registry record.  Modelled from the spec: `ModelLoader().providers`
(the loader lives outside the sources) supplies an ordered registry of
`(model_name, provider)` entries, read by both the forced-model lookup
and `matching_model`. -/
structure RegEntry where
  model_name : String
  provider : Provider

/-- A Python value appearing as a keyword-argument value at render time:
a string, `None` (a nested template whose render failed), or a `Model`
object (the `model=self.forced_model` argument of `prompt`). -/
inductive Val where
  | str : String → Val
  | pynone : Val
  | providerV : Provider → Val

/-- How jinja2 prints a substituted value. -/
def valStr : Val → String
  | .str s => s
  | .pynone => "None"
  | .providerV p => p.reprS

/-- Keyword-argument lookup. -/
def lookupVal (args : List (String × Val)) (k : String) : Option Val :=
  (args.find? (fun a => a.1 == k)).map (fun a => a.2)

/-- Scanner state shared by the placeholder scans: plain text, one `{`
seen, inside `{{ ... }}` collecting the expression, or one `}` seen. -/
inductive ScanSt where
  | txt : ScanSt
  | brace1 : ScanSt
  | inner (acc : List Char) : ScanSt
  | close1 (acc : List Char) : ScanSt

/-- Modelled from the spec: jinja2 substitution (the templating engine is
an external dependency).  Placeholders are `\x7b\x7b expr \x7d\x7d`; the variable named
by the stripped expression is replaced by its value, and per the spec a
missing variable or a malformed placeholder is a substitution failure
(`none`), the condition `_perform_templating` catches. -/
def renderSM (args : List (String × Val)) : ScanSt → List Char → Option (List Char)
  | .txt, [] => some []
  | .txt, c :: cs =>
    if c = '{' then renderSM args .brace1 cs
    else (renderSM args .txt cs).map (fun out => c :: out)
  | .brace1, [] => some ['{']
  | .brace1, c :: cs =>
    if c = '{' then renderSM args (.inner []) cs
    else (renderSM args .txt cs).map (fun out => '{' :: c :: out)
  | .inner _, [] => none
  | .inner acc, c :: cs =>
    if c = '}' then renderSM args (.close1 acc) cs
    else renderSM args (.inner (acc ++ [c])) cs
  | .close1 _, [] => none
  | .close1 acc, c :: cs =>
    if c = '}' then
      match lookupVal args (pyStrip (String.mk acc)) with
      | some v => (renderSM args .txt cs).map (fun out => (valStr v).data ++ out)
      | none => none
    else none

/-- `self.template.render(**kwargs)` on the raw template text. -/
def renderTemplate (body : String) (args : List (String × Val)) : Option String :=
  (renderSM args .txt body.data).map String.mk

/-- `re.findall(r'\x7b\x7b([^\x7d]*)\x7d\x7d', raw)`: the same scan, collecting every
matched capture group; on a failed candidate match the regex engine
resumes one position after the candidate's start, which coincides with
resuming at the failing character. -/
def valsSM : ScanSt → List Char → List String
  | _, [] => []
  | .txt, c :: cs => valsSM (if c = '{' then .brace1 else .txt) cs
  | .brace1, c :: cs => valsSM (if c = '{' then ScanSt.inner [] else .txt) cs
  | .inner acc, c :: cs =>
    if c = '}' then valsSM (.close1 acc) cs else valsSM (.inner (acc ++ [c])) cs
  | .close1 acc, c :: cs =>
    if c = '}' then String.mk acc :: valsSM .txt cs
    else valsSM (if c = '{' then .brace1 else .txt) cs

/-- The `template_values` property: `list(set(re.findall(...)))`.  The
order of `list(set(..))` is unspecified in Python; it is represented by
`List.dedup` of the findall list. -/
def templateValues (body : String) : List String := (valsSM .txt body.data).dedup

/-- The variable names `renderSM` looks up, in scan order: the keys the
body requires for a successful substitution. -/
def requiredKeysSM : ScanSt → List Char → List String
  | _, [] => []
  | .txt, c :: cs => requiredKeysSM (if c = '{' then .brace1 else .txt) cs
  | .brace1, c :: cs => requiredKeysSM (if c = '{' then ScanSt.inner [] else .txt) cs
  | .inner acc, c :: cs =>
    if c = '}' then requiredKeysSM (.close1 acc) cs
    else requiredKeysSM (.inner (acc ++ [c])) cs
  | .close1 acc, c :: cs =>
    if c = '}' then pyStrip (String.mk acc) :: requiredKeysSM .txt cs else []

/-- The variables the template body requires. -/
def requiredKeys (body : String) : List String := requiredKeysSM .txt body.data

mutual
/-- A keyword-argument value held by a `PT` or passed to a render call:
either a plain value or a nested template. -/
inductive Arg where
  | val : Val → Arg
  | pt : PT → Arg

/-- The `PT` object: forced model resolved at construction, bound keyword
arguments, shebang records, raw template text, the provider registry it
loaded, and the mutable compatibility list `self.models`. -/
inductive PT where
  | mk : Option Provider → List (String × Arg) → List Shebang → String →
      List RegEntry → List String → PT
end

def PT.forcedModel : PT → Option Provider
  | .mk f _ _ _ _ _ => f

def PT.boundKwargs : PT → List (String × Arg)
  | .mk _ k _ _ _ _ => k

def PT.shebangs : PT → List Shebang
  | .mk _ _ s _ _ _ => s

def PT.rawTemplate : PT → String
  | .mk _ _ _ r _ _ => r

def PT.availableModels : PT → List RegEntry
  | .mk _ _ _ _ a _ => a

def PT.models : PT → List String
  | .mk _ _ _ _ _ m => m

/-- `self.models = ...`: the only field the render loop mutates. -/
def PT.setModels : PT → List String → PT
  | .mk f k s r a _, m => .mk f k s r a m

/-- `list(set(xs).intersection(ys))`.  Python set order is unspecified;
it is represented by first-occurrence order of `xs`, deduplicated. -/
def pyIntersect (xs ys : List String) : List String :=
  (xs.filter (fun x => ys.contains x)).dedup

/-- The `matching_model` property: for each model in `self.models`, in
order, the first registry entry with that `model_name`; `None` when no
entry matches. -/
def matchingModel (p : PT) : Option Provider :=
  p.models.findSome? (fun m =>
    (p.availableModels.find? (fun e => e.model_name == m)).map (fun e => e.provider))

/-- Diagnostics the source emits via `print`/`logging`, in order. -/
inductive LogEvent where
  | errorTemplating
  | errorCheckValues (vals : List String)
  | infoForcedPrompt (name : String)
  | infoForcedRun (name : String)
  | infoRunArgs
  | errorRunNoMatch (registry : List RegEntry) (models : List String)
  | errorRunIndex

/-- The `try: return self.template.render(**kwargs) except: ...` tail of
`_perform_templating`: on substitution failure return `None` and log the
error together with `self.template_values`. -/
def renderStep (raw : String) (vals : List (String × Val)) :
    Option String × List LogEvent :=
  match renderTemplate raw vals with
  | some s => (some s, [])
  | none => (none, [.errorTemplating, .errorCheckValues (templateValues raw)])

/-- Is this argument a nested template? (`isinstance(v, PT)`). -/
def isArgPt : Arg → Bool
  | .pt _ => true
  | .val _ => false

mutual
/-- The loop of `_perform_templating`: each keyword argument that is a
`PT` is replaced by its rendered prompt (a string, or `None` on failure)
and `self.models` is narrowed to the intersection with the nested
template's models.  Returns the updated self, the substituted values in
order, and the accumulated logs. -/
def substArgs : PT → List (String × Arg) → PT × List (String × Val) × List LogEvent
  | p, [] => (p, [], [])
  | p, (k, .val v) :: rest =>
    let r := substArgs p rest
    (r.1, (k, v) :: r.2.1, r.2.2)
  | p, (k, .pt q) :: rest =>
    let pr := promptOf q
    let v : Val := match pr.2.1 with | some s => .str s | none => .pynone
    let p1 := p.setModels (pyIntersect p.models pr.1.models)
    let r := substArgs p1 rest
    (r.1, (k, v) :: r.2.1, pr.2.2 ++ r.2.2)
termination_by p l => sizeOf l

/-- The `prompt` property: `_perform_templating` over the bound kwargs,
with the `model` keyword appended according to the forced/matching
dispatch (the forced branch passes the `Model` object itself). -/
def promptOf : PT → PT × Option String × List LogEvent
  | p@(.mk _ kw _ _ _ _) =>
  let sa := substArgs p kw
  match p.forcedModel with
  | some m =>
    let rs := renderStep p.rawTemplate (sa.2.1 ++ [("model", .providerV m)])
    (sa.1, rs.1, .infoForcedPrompt m.name :: (sa.2.2 ++ rs.2))
  | none =>
    match matchingModel p with
    | some m =>
      let rs := renderStep p.rawTemplate (sa.2.1 ++ [("model", .str m.name)])
      (sa.1, rs.1, sa.2.2 ++ rs.2)
    | none =>
      let rs := renderStep p.rawTemplate sa.2.1
      (sa.1, rs.1, sa.2.2 ++ rs.2)
termination_by p => sizeOf p
end

/-- `_perform_templating(**kwargs)`: the spec's `render` operation. -/
def performTemplating (p : PT) (kwargs : List (String × Arg)) :
    PT × Option String × List LogEvent :=
  let sa := substArgs p kwargs
  let rs := renderStep p.rawTemplate sa.2.1
  (sa.1, rs.1, sa.2.2 ++ rs.2)

/-- `run(**kwargs)`: forced provider first, else the first compatible
registry match, else the no-provider exception — which the surrounding
`try/except` turns into a logged `None`.  Indexing `[0]` into an empty
result sequence is the `IndexError` caught the same way. -/
def runPT (p : PT) (kwargs : List (String × String)) : Option String × List LogEvent :=
  match p.forcedModel with
  | some m =>
    match (m.invoke kwargs).head? with
    | some r => (some r, [.infoForcedRun m.name])
    | none => (none, [.infoForcedRun m.name, .errorRunIndex])
  | none =>
    match matchingModel p with
    | some m =>
      match (m.invoke kwargs).head? with
      | some r => (some r, [.infoRunArgs])
      | none => (none, [.infoRunArgs, .errorRunIndex])
    | none => (none, [.errorRunNoMatch p.availableModels p.models])

/-- Lines 40-50 of `__init__`: resolve a forced model name against the
registry.  `self.forced_model` is assigned only inside the matching
branch, so when no entry matches, the subsequent
`if self.forced_model is None` reads an attribute that was never set:
an `AttributeError` escapes the constructor. -/
def resolveForced (registry : Option (List RegEntry)) (forced : Option String) :
    Except PyError (Option Provider) :=
  match forced, registry with
  | some f, some regs =>
    match regs.find? (fun e => e.model_name == f) with
    | some e => .ok (some e.provider)
    | none => .error .attributeError
  | _, _ => .ok none

/-- `PT.__init__`: forced-model resolution, file parsing, then the
registry reload and `self.models = [d['model_name'] for d in self.shebangs]`.
`registry = none` is the case where `ModelLoader` raises: the first,
guarded load leaves `available_models = None`, and the second, unguarded
load then raises out of the constructor. -/
def constructPT (content : String) (registry : Option (List RegEntry))
    (forced : Option String) (kwargs : List (String × Arg)) : Except PyError PT :=
  match resolveForced registry forced with
  | .error e => .error e
  | .ok fm =>
    match parseFile content with
    | .error e => .error e
    | .ok (shs, body) =>
      match registry with
      | none => .error .loaderError
      | some regs => .ok (.mk fm kwargs shs body regs (shs.map Shebang.model_name))

/-- The record a single directive line produces (the fallback branch is
unreachable: a `#!`-prefixed line always matches the pattern). -/
def dirRecord (l : String) : Shebang :=
  match shebangMatch (pyStrip l) with
  | some nv => mkShebang nv
  | none => ⟨"", ""⟩

/-- The value a nested template's render result contributes as a keyword
argument: its prompt string, or Python `None` on failure. -/
def optToVal : Option String → Val
  | some s => .str s
  | none => .pynone

/-! Concrete providers, registries and templates used to instantiate the
theorems below. -/

def provGpt : Provider := ⟨"gpt", "Model(gpt)", fun _ => ["g"]⟩

def provM1 : Provider := ⟨"m1", "Model(m1)", fun _ => ["match-result"]⟩

def provOther : Provider := ⟨"my", "Model(my)", fun _ => ["ry"]⟩

def provForced : Provider := ⟨"fm", "Model(fm)", fun _ => ["forced-result"]⟩

/-- Template compatible with `m1,m2`, body `\x7b\x7bb\x7d\x7d \x7b\x7by\x7d\x7d`. -/
def demoA : PT := .mk none [] [⟨"m1", "latest"⟩, ⟨"m2", "latest"⟩]
  "\x7b\x7bb\x7d\x7d \x7b\x7by\x7d\x7d" [] ["m1", "m2"]

/-- Template compatible with `m2,m3`, body `hi`. -/
def demoB : PT := .mk none [] [⟨"m2", "latest"⟩, ⟨"m3", "latest"⟩] "hi" [] ["m2", "m3"]

/-- Template compatible with `m1,m2`, body `\x7b\x7bx\x7d\x7d`. -/
def demoA4 : PT := .mk none [] [⟨"m1", "latest"⟩, ⟨"m2", "latest"⟩]
  "\x7b\x7bx\x7d\x7d" [] ["m1", "m2"]

/-- Template whose body `\x7b\x7ba\x7d\x7d \x7b\x7by\x7d\x7d` requires `a` and `y`. -/
def demoC : PT := .mk none [] [⟨"m1", "latest"⟩]
  "\x7b\x7ba\x7d\x7d \x7b\x7by\x7d\x7d" [] ["m1"]

/-- Template with no forced model whose registry has no matching entry. -/
def demoNoMatch : PT := .mk none [] [⟨"mx", "latest"⟩] "hi"
  [⟨"my", provOther⟩] ["mx"]

/-- Template with a forced provider whose registry would also produce a
compatibility match (a different provider). -/
def demoForced : PT := .mk (some provForced) [] [⟨"m1", "latest"⟩] "hi"
  [⟨"m1", provM1⟩] ["m1"]

/-! ### Supporting lemmas on stripping and directive parsing -/

theorem rstripL_cons (c : Char) (l : List Char) :
    rstripL (c :: l) =
      if (rstripL l).isEmpty then (if pyIsWs c then [] else [c]) else c :: rstripL l := rfl

theorem rstripL_cons_ne_nil (c : Char) (l : List Char) (hc : pyIsWs c = false) :
    rstripL (c :: l) ≠ [] := by
  rw [rstripL_cons]
  split
  · simp [hc]
  · simp

theorem rstripL_marker (t : List Char) :
    rstripL ('#' :: '!' :: t) = '#' :: '!' :: rstripL t := by
  have h1 : rstripL ('!' :: t) ≠ [] := rstripL_cons_ne_nil '!' t (by decide)
  rw [rstripL_cons]
  rw [if_neg (by simpa [List.isEmpty_iff] using h1)]
  rw [rstripL_cons]
  split
  · next hemp =>
    simp [List.isEmpty_iff] at hemp
    simp [pyIsWs, hemp]
  · rfl

theorem pyStrip_marker (t : List Char) :
    pyStrip (String.mk ('#' :: '!' :: t)) = String.mk ('#' :: '!' :: rstripL t) := by
  simp only [pyStrip, lstripL]
  rw [List.dropWhile_cons_of_neg (by decide), rstripL_marker]

theorem marker_data (l : String) (hl : pyStartsWith l "#!" = true) :
    ∃ t, l.data = '#' :: '!' :: t := by
  rcases l with ⟨data⟩
  have hd : ("#!" : String).data = ['#', '!'] := rfl
  simp only [pyStartsWith, hd] at hl
  rcases data with _ | ⟨c1, _ | ⟨c2, t⟩⟩
  · simp [List.isPrefixOf] at hl
  · simp [List.isPrefixOf] at hl
  · simp [List.isPrefixOf] at hl
    exact ⟨t, by simp [hl.1.symm, hl.2.symm]⟩

theorem shebangMatch_of_marker (l : String) (hl : pyStartsWith l "#!" = true) :
    ∃ nv, shebangMatch (pyStrip l) = some nv ∧ mkShebang nv = dirRecord l := by
  obtain ⟨t, ht⟩ := marker_data l hl
  have hl2 : l = String.mk ('#' :: '!' :: t) := by rcases l with ⟨d⟩; simp_all
  refine ⟨matchAfterMarker (rstripL t), ?_, ?_⟩
  · rw [hl2, pyStrip_marker]
    rfl
  · rw [dirRecord, hl2, pyStrip_marker]
    rfl

theorem parseShebangLoop_stop (dirs : List String) (r : String) (rs : List String)
    (hdirs : ∀ d ∈ dirs, pyStartsWith d "#!" = true)
    (hr : pyStartsWith r "#!" = false) :
    parseShebangLoop (dirs ++ (r :: rs)) = .ok (dirs.map dirRecord, r :: rs) := by
  induction dirs with
  | nil => simp [parseShebangLoop, hr]
  | cons d ds ih =>
    have hd : pyStartsWith d "#!" = true := hdirs d (by simp)
    obtain ⟨nv, hnv, hrec⟩ := shebangMatch_of_marker d hd
    have ih2 := ih (fun x hx => hdirs x (by simp [hx]))
    simp [parseShebangLoop, hd, hnv, ih2, hrec]

theorem not_marker_of_blank (b : String) (hb : isBlank b = true) :
    pyStartsWith b "#!" = false := by
  cases hbs : pyStartsWith b "#!"
  · rfl
  · exfalso
    obtain ⟨t, ht⟩ := marker_data b hbs
    have hb2 : b = String.mk ('#' :: '!' :: t) := by rcases b with ⟨d⟩; simp_all
    rw [isBlank, hb2, pyStrip_marker] at hb
    have hemp : ("" : String).data = [] := rfl
    simp [String.ext_iff, hemp] at hb

theorem skipBlankLines_stop (blanks : List String) (r : String) (rs : List String)
    (hb : ∀ x ∈ blanks, isBlank x = true) (hr : isBlank r = false) :
    skipBlankLines (blanks ++ (r :: rs)) = .ok (r :: rs) := by
  induction blanks with
  | nil => simp [skipBlankLines, hr]
  | cons x xs ih =>
    have hx : isBlank x = true := hb x (by simp)
    have ih2 := ih (fun y hy => hb y (by simp [hy]))
    simp [skipBlankLines, hx, ih2]

/-! ### Supporting lemmas on rendering and the kwargs loop -/

theorem PT.setModels_models (p : PT) (m : List String) : (p.setModels m).models = m := by
  cases p; rfl

theorem PT.setModels_shebangs (p : PT) (m : List String) :
    (p.setModels m).shebangs = p.shebangs := by
  cases p; rfl

theorem pyIntersect_subset (xs ys : List String) : pyIntersect xs ys ⊆ xs := by
  intro a ha
  rw [pyIntersect, List.mem_dedup] at ha
  exact (List.mem_filter.mp ha).1

theorem renderStep_fst (raw : String) (vals : List (String × Val)) :
    (renderStep raw vals).1 = renderTemplate raw vals := by
  cases h : renderTemplate raw vals <;> simp [renderStep, h]

theorem lookupVal_eq_none (args : List (String × Val)) (k : String)
    (h : ∀ e ∈ args, e.1 ≠ k) : lookupVal args k = none := by
  have hf : args.find? (fun a => a.1 == k) = none := by
    rw [List.find?_eq_none]
    intro x hx
    simpa using h x hx
  simp [lookupVal, hf]

theorem renderSM_none_of_missing (args : List (String × Val)) (k : String)
    (hk : lookupVal args k = none) :
    ∀ (l : List Char) (st : ScanSt), k ∈ requiredKeysSM st l → renderSM args st l = none := by
  intro l
  induction l with
  | nil =>
    intro st hmem
    cases st <;> simp [requiredKeysSM] at hmem
  | cons c cs ih =>
    intro st hmem
    cases st with
    | txt =>
      by_cases hc : c = '{' <;>
        simp only [requiredKeysSM, hc, if_true, if_false] at hmem <;>
        simp only [renderSM, hc, if_true, if_false]
      · exact ih _ hmem
      · rw [ih _ hmem]; rfl
    | brace1 =>
      by_cases hc : c = '{' <;>
        simp only [requiredKeysSM, hc, if_true, if_false] at hmem <;>
        simp only [renderSM, hc, if_true, if_false]
      · exact ih _ hmem
      · rw [ih _ hmem]; rfl
    | inner acc =>
      by_cases hc : c = '}' <;>
        simp only [requiredKeysSM, hc, if_true, if_false] at hmem <;>
        simp only [renderSM, hc, if_true, if_false] <;>
        exact ih _ hmem
    | close1 acc =>
      by_cases hc : c = '}'
      · simp only [requiredKeysSM, hc, if_true, List.mem_cons] at hmem
        simp only [renderSM, hc, if_true]
        rcases hmem with hkey | hrest
        · rw [← hkey, hk]
        · cases hl : lookupVal args (pyStrip (String.mk acc))
          · rfl
          · rw [ih _ hrest]; rfl
      · simp only [requiredKeysSM, hc, if_false] at hmem
        simp at hmem

theorem substArgs_plain (p : PT) (kwargs : List (String × Arg))
    (h : ∀ e ∈ kwargs, isArgPt e.2 = false) :
    (substArgs p kwargs).1 = p ∧ (substArgs p kwargs).2.2 = [] ∧
      ((substArgs p kwargs).2.1).map Prod.fst = kwargs.map Prod.fst := by
  induction kwargs with
  | nil => simp [substArgs]
  | cons e rest ih =>
    obtain ⟨k, a⟩ := e
    cases a with
    | val v =>
      have ih2 := ih (fun x hx => h x (by simp [hx]))
      simp [substArgs, ih2.1, ih2.2.1, ih2.2.2]
    | pt q =>
      have := h (k, .pt q) (by simp)
      simp [isArgPt] at this

theorem substArgs_state (kwargs : List (String × Arg)) :
    ∀ p : PT, ((substArgs p kwargs).1).shebangs = p.shebangs ∧
      ((substArgs p kwargs).1).models ⊆ p.models := by
  induction kwargs with
  | nil => intro p; simp [substArgs]
  | cons e rest ih =>
    intro p
    obtain ⟨k, a⟩ := e
    cases a with
    | val v => simpa [substArgs] using ih p
    | pt q =>
      have h2 := ih (p.setModels (pyIntersect p.models ((promptOf q).1).models))
      simp only [substArgs]
      refine ⟨?_, ?_⟩
      · rw [h2.1, PT.setModels_shebangs]
      · refine List.Subset.trans h2.2 ?_
        rw [PT.setModels_models]
        exact pyIntersect_subset _ _

theorem promptOf_fst (p : PT) : (promptOf p).1 = (substArgs p p.boundKwargs).1 := by
  rcases p with ⟨f, kw, shs, raw, av, ms⟩
  simp only [promptOf, PT.forcedModel, PT.boundKwargs]
  cases f with
  | some m => rfl
  | none => cases hm : matchingModel (.mk none kw shs raw av ms) <;> simp [hm]

theorem matchingModel_eq_none (p : PT)
    (h : ∀ m ∈ p.models, ∀ e ∈ p.availableModels, ¬ e.model_name = m) :
    matchingModel p = none := by
  simp only [matchingModel, List.findSome?_eq_none_iff]
  intro m hm
  have hf : p.availableModels.find? (fun e => e.model_name == m) = none := by
    rw [List.find?_eq_none]
    intro e he
    simpa using h m hm e he
  rw [hf]
  rfl

/-! ### The claims -/

/-- C1: the claim says that a forced (override) model name absent from the
provider registry resolves to `None`, construction succeeds, and the
condition is only logged.  The code instead reads the never-assigned
`self.forced_model` attribute on line 47 and construction fails with an
`AttributeError`: with registry entry `gpt` and override name `claude`,
both the resolution step and the whole constructor error out. -/
theorem pt_c1_forced_not_found_raises :
    resolveForced (some [⟨"gpt", provGpt⟩]) (some "claude") = .error .attributeError ∧
    constructPT "#!gpt\n\nhi" (some [⟨"gpt", provGpt⟩]) (some "claude") [] =
      .error .attributeError :=
  ⟨rfl, rfl⟩

/-- C2 counterexample: a render call whose body requires `y`, with `y`
supplied neither in the call kwargs (which pass only the nested template
for `b`) nor in the bound kwargs (empty), returns `None` — but
`compatible_models` does not stay unchanged: it is narrowed by the nested
template, so the claim as stated is false at this input. -/
theorem pt_c2_counterexample :
    "y" ∈ requiredKeys demoA.rawTemplate ∧
    demoA.boundKwargs = [] ∧
    (performTemplating demoA [("b", Arg.pt demoB)]).2.1 = none ∧
    ((performTemplating demoA [("b", Arg.pt demoB)]).1).models ≠ demoA.models := by
  refine ⟨by decide, rfl, ?_, ?_⟩
  · simp only [performTemplating, demoA, demoB, substArgs, promptOf]
    decide
  · simp only [performTemplating, demoA, demoB, substArgs, promptOf]
    decide

/-- C2 amended: a render call that requires a template variable supplied
neither in the call's kwargs nor in the bound kwargs returns the failure
sentinel `None`, emits the diagnostic listing `template_values`, and —
provided no keyword-argument value is itself a template — leaves the
whole state, `compatible_models` included, unchanged. -/
theorem pt_c2_render_missing_var (p : PT) (kwargs : List (String × Arg)) (k : String)
    (hreq : k ∈ requiredKeys p.rawTemplate)
    (hkw : ∀ e ∈ kwargs, e.1 ≠ k)
    (hbound : ∀ e ∈ p.boundKwargs, e.1 ≠ k)
    (hplain : ∀ e ∈ kwargs, isArgPt e.2 = false) :
    performTemplating p kwargs =
      (p, none, [.errorTemplating, .errorCheckValues (templateValues p.rawTemplate)]) := by
  obtain ⟨h1, h2, h3⟩ := substArgs_plain p kwargs hplain
  have hlk : lookupVal ((substArgs p kwargs).2.1) k = none := by
    apply lookupVal_eq_none
    intro e he
    have hmem : e.1 ∈ kwargs.map Prod.fst := by
      rw [← h3]
      exact List.mem_map_of_mem _ he
    obtain ⟨e2, he2, heq⟩ := List.mem_map.mp hmem
    rw [← heq]
    exact hkw e2 he2
  have hrend : renderTemplate p.rawTemplate ((substArgs p kwargs).2.1) = none := by
    have hsm := renderSM_none_of_missing _ k hlk (p.rawTemplate).data .txt
      (by simpa [requiredKeys] using hreq)
    simp [renderTemplate, hsm]
  simp only [performTemplating, renderStep, hrend]
  simp [h1, h2]

theorem pt_c2_render_missing_var_witness :
    performTemplating demoC [("a", Arg.val (Val.str "1"))] =
      (demoC, none, [.errorTemplating, .errorCheckValues ["a", "y"]]) :=
  pt_c2_render_missing_var demoC [("a", Arg.val (Val.str "1"))] "y"
    (by decide) (by decide) (by decide) (by decide)

/-- C3: a well-formed file — directive lines, then blank lines, then body
text whose first line is neither blank nor a directive — parses to
exactly one record per directive line and a body equal to the remaining
lines with leading and trailing blank lines removed; and the concrete
scenario: directives `[gpt/4]`, body `Hello \x7b\x7bname\x7d\x7d`, rendering with
`name=World` gives `Hello World`. -/
theorem pt_c3_parse_wellformed :
    (∀ (dirs blanks : List String) (b0 : String) (rest : List String),
      (∀ d ∈ dirs, pyStartsWith d "#!" = true) →
      (∀ x ∈ blanks, isBlank x = true) →
      isBlank b0 = false → pyStartsWith b0 "#!" = false →
      parseLines (dirs ++ (blanks ++ (b0 :: rest))) =
        .ok (dirs.map dirRecord, String.join (dropTrailingBlank (b0 :: rest)))) ∧
    parseFile "#!gpt/4\n\nHello \x7b\x7bname\x7d\x7d" =
      .ok ([⟨"gpt", "4"⟩], "Hello \x7b\x7bname\x7d\x7d") ∧
    renderTemplate "Hello \x7b\x7bname\x7d\x7d" [("name", Val.str "World")] =
      some "Hello World" := by
  refine ⟨?_, rfl, rfl⟩
  intro dirs blanks b0 rest hdirs hblanks hb0 hm0
  have hloop : parseShebangLoop (dirs ++ (blanks ++ (b0 :: rest))) =
      .ok (dirs.map dirRecord, blanks ++ (b0 :: rest)) := by
    cases blanks with
    | nil => simpa using parseShebangLoop_stop dirs b0 rest hdirs hm0
    | cons x xs =>
      have hx := not_marker_of_blank x (hblanks x (by simp))
      simpa using parseShebangLoop_stop dirs x (xs ++ (b0 :: rest)) hdirs hx
  have hskip := skipBlankLines_stop blanks b0 rest hblanks hb0
  simp [parseLines, hloop, hskip]

theorem pt_c3_parse_wellformed_witness :
    parseLines ["#!gpt/4\n", "\n", "Hello x"] = .ok ([⟨"gpt", "4"⟩], "Hello x") :=
  (pt_c3_parse_wellformed.1 ["#!gpt/4\n"] ["\n"] "Hello x" []
    (by decide) (by decide) (by decide) (by decide)).trans (by rfl)

/-- C4: rendering template `p` with template `q` passed as the value of
keyword `k` substitutes `q`'s rendered prompt for that value and sets
`p`'s models to the intersection of `p`'s and `q`'s models; concretely,
`m1,m2` composed with `m2,m3` leaves exactly `m2`, and the prompt of the
nested body `hi` is substituted. -/
theorem pt_c4_compose_narrowing :
    (∀ (p q : PT) (k : String),
      ((performTemplating p [(k, Arg.pt q)]).1).models =
        pyIntersect p.models ((promptOf q).1).models) ∧
    (∀ (p q : PT) (k : String),
      (performTemplating p [(k, Arg.pt q)]).2.1 =
        renderTemplate p.rawTemplate [(k, optToVal ((promptOf q).2.1))]) ∧
    ((performTemplating demoA4 [("x", Arg.pt demoB)]).1).models = ["m2"] ∧
    (performTemplating demoA4 [("x", Arg.pt demoB)]).2.1 = some "hi" := by
  refine ⟨?_, ?_, ?_, ?_⟩
  · intro p q k
    simp only [performTemplating, substArgs]
    simp [PT.setModels_models]
  · intro p q k
    simp only [performTemplating, substArgs]
    rw [renderStep_fst]
    cases hpr : (promptOf q).2.1 <;> simp [optToVal, hpr]
  · simp only [performTemplating, demoA4, demoB, substArgs, promptOf]
    decide
  · simp only [performTemplating, demoA4, demoB, substArgs, promptOf]
    decide

/-- C5: at construction `compatible_models` equals the model names of the
directives, and rendering (`_perform_templating`) and `prompt` preserve
the directive list while only ever shrinking `compatible_models`; hence
along any sequence of these operations it stays a subset of the declared
model names. -/
theorem pt_c5_models_invariant :
    (∀ (content : String) (reg : Option (List RegEntry)) (forced : Option String)
        (kw : List (String × Arg)) (p : PT),
      constructPT content reg forced kw = .ok p →
      p.models = p.shebangs.map Shebang.model_name) ∧
    (∀ (p : PT) (kwargs : List (String × Arg)),
      ((performTemplating p kwargs).1).shebangs = p.shebangs ∧
      ((performTemplating p kwargs).1).models ⊆ p.models) ∧
    (∀ p : PT, ((promptOf p).1).shebangs = p.shebangs ∧
      ((promptOf p).1).models ⊆ p.models) := by
  refine ⟨?_, ?_, ?_⟩
  · intro content reg forced kw p h
    unfold constructPT at h
    cases hr : resolveForced reg forced <;> rw [hr] at h
    · simp at h
    · cases hp : parseFile content <;> rw [hp] at h
      · simp at h
      · next pr =>
        obtain ⟨shs, body⟩ := pr
        cases reg with
        | none => simp at h
        | some regs =>
          simp only [Except.ok.injEq] at h
          rw [← h]
          rfl
  · intro p kwargs
    have h := substArgs_state kwargs p
    simpa [performTemplating] using h
  · intro p
    rw [promptOf_fst]
    exact substArgs_state p.boundKwargs p

theorem pt_c5_models_invariant_witness :
    (PT.mk none [] [⟨"m1", "latest"⟩] "hi" [] ["m1"]).models =
      (PT.mk none [] [⟨"m1", "latest"⟩] "hi" [] ["m1"]).shebangs.map Shebang.model_name :=
  pt_c5_models_invariant.1 "#!m1\n\nhi" (some []) none []
    (PT.mk none [] [⟨"m1", "latest"⟩] "hi" [] ["m1"]) rfl

/-- C6: `run` on a template with no bound override and no registry entry
matching any of its compatible models returns the failure sentinel
`None`, with the no-compatible-provider condition reported together with
the full registry and the template's compatibility list. -/
theorem pt_c6_no_match_returns_none (p : PT) (kwargs : List (String × String))
    (hf : p.forcedModel = none)
    (h : ∀ m ∈ p.models, ∀ e ∈ p.availableModels, ¬ e.model_name = m) :
    runPT p kwargs = (none, [.errorRunNoMatch p.availableModels p.models]) := by
  simp [runPT, hf, matchingModel_eq_none p h]

theorem pt_c6_no_match_returns_none_witness :
    runPT demoNoMatch [] = (none, [.errorRunNoMatch [⟨"my", provOther⟩] ["mx"]]) :=
  pt_c6_no_match_returns_none demoNoMatch [] rfl (by decide)

/-- C7: `run` on a template constructed with a bound override provider
always invokes that provider — the result is the head of the override's
response, and the override log entry comes first — regardless of what
compatibility matching would have selected. -/
theorem pt_c7_forced_dispatch (p : PT) (kwargs : List (String × String)) (m : Provider)
    (h : p.forcedModel = some m) :
    (runPT p kwargs).1 = (m.invoke kwargs).head? ∧
    (runPT p kwargs).2.head? = some (.infoForcedRun m.name) := by
  simp only [runPT, h]
  cases hi : (m.invoke kwargs).head? <;> simp

theorem pt_c7_forced_dispatch_witness :
    matchingModel demoForced = some provM1 ∧
    (runPT demoForced []).1 = (provForced.invoke []).head? ∧
    (runPT demoForced []).1 = some "forced-result" :=
  ⟨rfl, (pt_c7_forced_dispatch demoForced [] provForced rfl).1, rfl⟩

/-- C8: `template_values` is duplicate-free for every body, applying the
set construction again changes nothing, and a body containing `\x7b\x7ba\x7d\x7d`
twice yields the one-element set `[a]`. -/
theorem pt_c8_template_values_dedup :
    (∀ body : String, (templateValues body).Nodup) ∧
    (∀ body : String, (templateValues body).dedup = templateValues body) ∧
    templateValues "x \x7b\x7ba\x7d\x7d y \x7b\x7ba\x7d\x7d z" = ["a"] :=
  ⟨fun _ => List.nodup_dedup _, fun _ => List.Nodup.dedup (List.nodup_dedup _), by decide⟩

/-- C9: the claim says a directive line not of the form `name(/version)?`
— such as one with a second slash — fails parsing with a malformed-
directive error.  The pattern `#!\s*([^/]*)/?([^/]*)?` cannot fail on a
`#!`-prefixed line, so the error branch is unreachable and `#!a/b/c` is
silently accepted as model `a`, version `b`, dropping `/c`. -/
theorem pt_c9_malformed_directive_accepted :
    parseFile "#!a/b/c\n\nbody" = .ok ([⟨"a", "b"⟩], "body") := rfl

/-- C10: narrowing is not atomic with rendering: the kwargs loop narrows
`compatible_models` before substitution is attempted, so when
substitution fails the render call returns `None` with the narrowed
state kept — and for a nested-template argument the narrowed models are
exactly the intersection computed before the render step. -/
theorem pt_c10_narrowing_persists :
    (∀ (p : PT) (kwargs : List (String × Arg)),
      renderTemplate p.rawTemplate ((substArgs p kwargs).2.1) = none →
      performTemplating p kwargs =
        ((substArgs p kwargs).1, none,
          (substArgs p kwargs).2.2 ++
            [.errorTemplating, .errorCheckValues (templateValues p.rawTemplate)])) ∧
    (∀ (p q : PT) (k : String),
      ((substArgs p [(k, Arg.pt q)]).1).models =
        pyIntersect p.models ((promptOf q).1).models) := by
  constructor
  · intro p kwargs h
    simp [performTemplating, renderStep, h]
  · intro p q k
    simp only [substArgs]
    simp [PT.setModels_models]

theorem pt_c10_narrowing_persists_witness :
    performTemplating demoA [("b", Arg.pt demoB)] =
      ((substArgs demoA [("b", Arg.pt demoB)]).1, none,
        (substArgs demoA [("b", Arg.pt demoB)]).2.2 ++
          [.errorTemplating, .errorCheckValues (templateValues demoA.rawTemplate)]) :=
  pt_c10_narrowing_persists.1 demoA [("b", Arg.pt demoB)]
    (by simp only [demoA, demoB, substArgs, promptOf]; decide)

end PTSpec
